import Mathlib

/-!
Verification of the AptosFlow repository against its specification.

Part A embeds the on-chain Move module `my_aptos_project::workflow_graph`
(workflow registration, recursive DAG execution, deletion).  Addresses and
u64 values are modelled as `Nat`; Move `u64` addition aborts on overflow,
which is modelled explicitly where the overflow matters (the per-store
workflow-id counter).  A Move `abort` rolls back the whole transaction, so
every entry point is modelled as `GlobalState → Except Nat GlobalState`
where `Except.error code` means the transaction aborted with that code and
left the pre-state untouched.

Part B embeds the relevant TypeScript backend functions (payment
verification, health probing, trigger post-processing, rate limiting,
payment storage) as pure functions over explicit inputs: results of
awaited external calls (chain RPC, database queries) are passed in as
parameters, and a thrown/rejected promise is an `Except.error`.
-/

namespace WorkflowGraph

/-- Association-list lookup, modelling `table::borrow` / `simple_map::borrow`
(keys are u64 values modelled as `Nat`): the value at the first entry whose
key matches, if any. -/
def alist_get {α : Type} : List (Nat × α) → Nat → Option α
  | [], _ => none
  | e :: m, k => if e.1 = k then some e.2 else alist_get m k

/-- Membership test, modelling `table::contains` / `simple_map::contains_key`. -/
def alist_contains {α : Type} (m : List (Nat × α)) (k : Nat) : Bool :=
  (alist_get m k).isSome

/-- In-place update of an existing key, modelling assignment through
`table::borrow_mut`. -/
def alist_set {α : Type} (m : List (Nat × α)) (k : Nat) (v : α) : List (Nat × α) :=
  m.map (fun e => if e.1 == k then (k, v) else e)

/-- Insertion of a fresh key, modelling `table::add` / `simple_map::add`
after the caller has checked the key is absent. -/
def alist_add {α : Type} (m : List (Nat × α)) (k : Nat) (v : α) : List (Nat × α) :=
  m ++ [(k, v)]

/-- Removal, modelling `table::remove`. -/
def alist_remove {α : Type} (m : List (Nat × α)) (k : Nat) : List (Nat × α) :=
  m.filter (fun e => e.1 != k)

/-! Module abort codes, verbatim from the source. -/

def E_WORKFLOW_NOT_FOUND : Nat := 1
def E_NOT_OWNER : Nat := 2
def E_WORKFLOW_LOCKED : Nat := 3
def E_INVALID_NODE_ID : Nat := 4
def E_RECURSION_LIMIT : Nat := 7
def E_UNKNOWN_NODE_TYPE : Nat := 8
def E_NOT_IMPLEMENTED : Nat := 11

/-! Abort codes of the VM / framework, not of the module: these model
aborts raised inside `coin::transfer`, vector indexing, map insertion and
u64 arithmetic.  Their concrete values are irrelevant to the claims; they
only need to be distinct from the module codes. -/

def E_INSUFFICIENT_BALANCE : Nat := 1001
def E_ARITHMETIC_OVERFLOW : Nat := 1002
def E_DUPLICATE_KEY : Nat := 1003
def E_VECTOR_OUT_OF_BOUNDS : Nat := 1004

/-- Model artifact: the recursion fuel of `walk_and_execute` ran out.  The
fuel passed by `execute_workflow` exceeds what the depth guard admits, so
this code is unreachable from the entry points. -/
def E_MODEL_OUT_OF_FUEL : Nat := 1999

def U64_MODULUS : Nat := 2 ^ 64

/-! Constants from the source. -/

def MAX_RECURSION_DEPTH : Nat := 20

def NODE_TYPE_TRANSFER : Nat := 1
def NODE_TYPE_BALANCE_CHECK : Nat := 2
def NODE_TYPE_END : Nat := 3
def NODE_TYPE_SWAP : Nat := 4
def NODE_TYPE_STAKE : Nat := 5
def NODE_TYPE_VOTE : Nat := 6
def NODE_TYPE_WAIT : Nat := 7
def NODE_TYPE_BRANCH : Nat := 8
def NODE_TYPE_LIQUIDITY : Nat := 9
def NODE_TYPE_BORROW_LEND : Nat := 10
def NODE_TYPE_ORACLE_CHECK : Nat := 11

/-- Individual node in the workflow DAG (`struct Node`).  `data` is the raw
byte payload, `next_ids` the ordered successor list. -/
structure Node where
  id : Nat
  node_type : Nat
  target_address : Nat
  amount : Nat
  data : List Nat
  next_ids : List Nat
deriving DecidableEq

/-- Complete workflow graph (`struct Workflow`); `nodes` is the
`SimpleMap<u64, Node>` as an association list in insertion order. -/
structure Workflow where
  id : Nat
  owner : Nat
  nodes : List (Nat × Node)
  start_node_id : Nat
  created_at : Nat
  last_executed_at : Nat
  is_locked : Bool
deriving DecidableEq

/-- Per-account store (`struct WorkflowStore`). -/
structure WorkflowStore where
  workflows : List (Nat × Workflow)
  next_workflow_id : Nat
deriving DecidableEq

/-- Execution context threaded through the recursive walk
(`struct ExecutionContext`). -/
structure ExecutionContext where
  workflow_id : Nat
  current_depth : Nat
  owner : Nat
deriving DecidableEq

/-- The three event kinds the module emits. -/
inductive Event
  | step (workflow_id node_id node_type : Nat) (success : Bool) (error_code : Nat)
  | completed (workflow_id total_steps : Nat) (success : Bool)
  | registered (workflow_id owner node_count : Nat)
deriving DecidableEq

/-- On-chain global state touched by the module: the per-address
`WorkflowStore` resources, AptosCoin balances, the queued event stream
(in emission order), and the chain clock `timestamp::now_seconds()`. -/
structure GlobalState where
  stores : List (Nat × WorkflowStore)
  balances : List (Nat × Nat)
  events : List Event
  now : Nat
deriving DecidableEq

/-- Mutable context during one `execute_workflow` call: balances and the
event queue (the workflow value itself is threaded separately, matching
the `&mut Workflow` argument that the walk never writes through). -/
structure ExecSt where
  balances : List (Nat × Nat)
  events : List Event
deriving DecidableEq

/-- `coin::balance<AptosCoin>(owner)`: 0 for an address with no entry. -/
def coin_balance (balances : List (Nat × Nat)) (owner : Nat) : Nat :=
  (alist_get balances owner).getD 0

/-- Write a balance, updating an existing entry or appending a new one. -/
def balance_upsert (balances : List (Nat × Nat)) (owner v : Nat) : List (Nat × Nat) :=
  if alist_contains balances owner then alist_set balances owner v
  else alist_add balances owner v

/-- `coin::transfer<AptosCoin>(account, recipient, amount)`: aborts when
the sender's balance is insufficient, otherwise moves `amount`.
(The framework's store-registration aborts are outside this model.) -/
def coin_transfer (balances : List (Nat × Nat)) (sender recipient amount : Nat) :
    Except Nat (List (Nat × Nat)) :=
  let sbal := coin_balance balances sender
  if amount ≤ sbal then
    let b1 := balance_upsert balances sender (sbal - amount)
    Except.ok (balance_upsert b1 recipient (coin_balance b1 recipient + amount))
  else
    Except.error E_INSUFFICIENT_BALANCE

/-- `handle_transfer_action`: coin transfer from the executing signer to
`node.target_address`; success is unconditionally `(true, 0)` (an
insufficient balance aborts instead of returning failure). -/
def handle_transfer_action (st : ExecSt) (caller : Nat) (node : Node) :
    Except Nat (ExecSt × Bool × Nat) :=
  match coin_transfer st.balances caller node.target_address node.amount with
  | Except.error e => Except.error e
  | Except.ok b => Except.ok ({ st with balances := b }, true, 0)

/-- `handle_balance_check`: success iff the context owner's balance is at
least `node.amount`. -/
def handle_balance_check (st : ExecSt) (owner : Nat) (node : Node) :
    Except Nat (ExecSt × Bool × Nat) :=
  Except.ok (st, decide (node.amount ≤ coin_balance st.balances owner), 0)

/-- `dispatch_node`: route a node to its handler, in the source's test
order.  SWAP, STAKE, VOTE, LIQUIDITY, BORROW_LEND and ORACLE_CHECK all
`abort E_NOT_IMPLEMENTED`; WAIT and BRANCH are no-op successes; an unknown
byte returns `(false, E_UNKNOWN_NODE_TYPE)` without aborting. -/
def dispatch_node (st : ExecSt) (caller : Nat) (node : Node) (ctx : ExecutionContext) :
    Except Nat (ExecSt × Bool × Nat) :=
  if node.node_type = NODE_TYPE_TRANSFER then
    handle_transfer_action st caller node
  else if node.node_type = NODE_TYPE_BALANCE_CHECK then
    handle_balance_check st ctx.owner node
  else if node.node_type = NODE_TYPE_END then
    Except.ok (st, true, 0)
  else if node.node_type = NODE_TYPE_SWAP then
    Except.error E_NOT_IMPLEMENTED
  else if node.node_type = NODE_TYPE_STAKE then
    Except.error E_NOT_IMPLEMENTED
  else if node.node_type = NODE_TYPE_VOTE then
    Except.error E_NOT_IMPLEMENTED
  else if node.node_type = NODE_TYPE_LIQUIDITY then
    Except.error E_NOT_IMPLEMENTED
  else if node.node_type = NODE_TYPE_BORROW_LEND then
    Except.error E_NOT_IMPLEMENTED
  else if node.node_type = NODE_TYPE_ORACLE_CHECK then
    Except.error E_NOT_IMPLEMENTED
  else if node.node_type = NODE_TYPE_WAIT then
    Except.ok (st, true, 0)
  else if node.node_type = NODE_TYPE_BRANCH then
    Except.ok (st, true, 0)
  else
    Except.ok (st, false, E_UNKNOWN_NODE_TYPE)

/-- Append a `WorkflowStepEvent` to the queue. -/
def emit_step (st : ExecSt) (ctx : ExecutionContext) (node_id : Nat) (node : Node)
    (success : Bool) (error_code : Nat) : ExecSt :=
  { st with events :=
      st.events ++ [Event.step ctx.workflow_id node_id node.node_type success error_code] }

/-- The child context of a recursive walk step: same workflow and owner,
depth bumped by one. -/
def bump_depth (ctx : ExecutionContext) : ExecutionContext :=
  { ctx with current_depth := ctx.current_depth + 1 }

/-- `walk_and_execute`: recursive depth-first execution of the DAG.
The Move recursion terminates because `current_depth` strictly increases
and is asserted `< MAX_RECURSION_DEPTH` on entry; the embedding adds a
structural `fuel` argument so the function computes in the kernel.  The
entry point passes `MAX_RECURSION_DEPTH + 1` fuel at depth 0, and each
call consumes one unit while raising the depth by one, so the fuel can
reach 0 only at depth `> MAX_RECURSION_DEPTH`, which the depth guard has
already turned into `E_RECURSION_LIMIT`; `E_MODEL_OUT_OF_FUEL` is
therefore unreachable from the entry points.  The body mirrors the source:
guard the depth, look the node up (abort `E_INVALID_NODE_ID` when absent),
dispatch it, emit a `WorkflowStepEvent`, and when dispatch succeeded
recurse — for a BRANCH node with at least two successors into
`next_ids[0]` only (the condition is the source's hardcoded
`condition_met = true`), and for every other type into every successor in
array order, accumulating `1 +` the recursive step counts. -/
def walk_and_execute : Nat → ExecSt → Nat → Workflow → Nat → ExecutionContext →
    Except Nat (ExecSt × Nat)
  | 0, _, _, _, _, _ => Except.error E_MODEL_OUT_OF_FUEL
  | fuel + 1, st, caller, wf, node_id, ctx =>
    if ctx.current_depth < MAX_RECURSION_DEPTH then
      match alist_get wf.nodes node_id with
      | none => Except.error E_INVALID_NODE_ID
      | some node =>
        match dispatch_node st caller node ctx with
        | Except.error e => Except.error e
        | Except.ok (st1, success, error_code) =>
          let st2 := emit_step st1 ctx node_id node success error_code
          if success then
            if node.node_type = NODE_TYPE_BRANCH then
              if 2 ≤ node.next_ids.length then
                let condition_met := true
                let next_id := if condition_met then node.next_ids.getD 0 0
                  else node.next_ids.getD 1 0
                match walk_and_execute fuel st2 caller wf next_id (bump_depth ctx) with
                | Except.error e => Except.error e
                | Except.ok (st3, n) => Except.ok (st3, 1 + n)
              else
                Except.ok (st2, 1)
            else
              node.next_ids.foldlM
                (fun acc next_id =>
                  match walk_and_execute fuel acc.1 caller wf next_id (bump_depth ctx) with
                  | Except.error e => Except.error e
                  | Except.ok (st3, n) => Except.ok (st3, acc.2 + n))
                (st2, 1)
          else
            Except.ok (st2, 1)
    else
      Except.error E_RECURSION_LIMIT

/-- `execute_workflow` entry point.  Checks, in source order: the caller
has a store (`E_WORKFLOW_NOT_FOUND`), the id is present
(`E_WORKFLOW_NOT_FOUND`), the stored owner equals the caller
(`E_NOT_OWNER`), the workflow is not locked (`E_WORKFLOW_LOCKED`).  Then
locks, walks from `start_node_id` at depth 0, stamps
`last_executed_at = now`, unlocks, and emits a `WorkflowCompletedEvent`
with `success = true`. -/
def execute_workflow (gs : GlobalState) (caller workflow_id : Nat) :
    Except Nat GlobalState :=
  match alist_get gs.stores caller with
  | none => Except.error E_WORKFLOW_NOT_FOUND
  | some store =>
    match alist_get store.workflows workflow_id with
    | none => Except.error E_WORKFLOW_NOT_FOUND
    | some wf =>
      if wf.owner ≠ caller then Except.error E_NOT_OWNER
      else if wf.is_locked then Except.error E_WORKFLOW_LOCKED
      else
        let wf1 := { wf with is_locked := true }
        let ctx : ExecutionContext := ⟨workflow_id, 0, caller⟩
        match walk_and_execute (MAX_RECURSION_DEPTH + 1) ⟨gs.balances, gs.events⟩
            caller wf1 wf1.start_node_id ctx with
        | Except.error e => Except.error e
        | Except.ok (st, total_steps) =>
          let wf2 := { wf1 with last_executed_at := gs.now, is_locked := false }
          let store2 := { store with workflows := alist_set store.workflows workflow_id wf2 }
          Except.ok { gs with
            stores := alist_set gs.stores caller store2,
            balances := st.balances,
            events := st.events ++ [Event.completed workflow_id total_steps true] }

/-- Transaction semantics of an entry-point call: an abort rolls every
state change back, so the post-state of a failed call is the pre-state.
Returns the effective post-state and the abort code, if any. -/
def run_execute_workflow (gs : GlobalState) (caller workflow_id : Nat) :
    GlobalState × Option Nat :=
  match execute_workflow gs caller workflow_id with
  | Except.ok gs2 => (gs2, none)
  | Except.error e => (gs, some e)

/-- `init_workflow_store`: create an empty store with counter 0 for the
account unless one already exists. -/
def init_workflow_store (gs : GlobalState) (account : Nat) : GlobalState :=
  if alist_contains gs.stores account then gs
  else { gs with stores := alist_add gs.stores account ⟨[], 0⟩ }

/-- The TRANSFER node built by `create_simple_transfer_workflow_internal`. -/
def simple_transfer_node (recipient amount : Nat) : Node :=
  ⟨1, NODE_TYPE_TRANSFER, recipient, amount, [], [2]⟩

/-- The END node built by `create_simple_transfer_workflow_internal`. -/
def simple_end_node : Node :=
  ⟨2, NODE_TYPE_END, 0, 0, [], []⟩

/-- `create_simple_transfer_workflow_internal`: initialize the store if
needed, draw the next workflow id (u64 increment aborts on overflow),
build the canonical two-node graph (1 = TRANSFER to `recipient` for
`amount` with successor [2]; 2 = END with no successors), store it with
`start_node_id = 1`, `created_at = now`, `last_executed_at = 0`, unlocked,
and emit `WorkflowRegisteredEvent` with `node_count = 2`.  `table::add`
aborts if the id is already present. -/
def create_simple_transfer_workflow_internal (gs : GlobalState)
    (account recipient amount : Nat) : Except Nat (GlobalState × Nat) :=
  let gs1 := init_workflow_store gs account
  match alist_get gs1.stores account with
  | none => Except.error E_WORKFLOW_NOT_FOUND
  | some store =>
    let workflow_id := store.next_workflow_id
    if workflow_id + 1 < U64_MODULUS then
      if alist_contains store.workflows workflow_id then Except.error E_DUPLICATE_KEY
      else
        let nodes_map := alist_add (alist_add [] 1 (simple_transfer_node recipient amount))
          2 simple_end_node
        let wf : Workflow := ⟨workflow_id, account, nodes_map, 1, gs1.now, 0, false⟩
        let store2 : WorkflowStore :=
          ⟨alist_add store.workflows workflow_id wf, workflow_id + 1⟩
        Except.ok ({ gs1 with
          stores := alist_set gs1.stores account store2,
          events := gs1.events ++ [Event.registered workflow_id account 2] }, workflow_id)
    else
      Except.error E_ARITHMETIC_OVERFLOW

/-- `register_simple_transfer_workflow` entry point. -/
def register_simple_transfer_workflow (gs : GlobalState)
    (account recipient amount : Nat) : Except Nat GlobalState :=
  match create_simple_transfer_workflow_internal gs account recipient amount with
  | Except.error e => Except.error e
  | Except.ok (gs1, _) => Except.ok gs1

/-- The node-construction loop of `create_workflow_internal`: walk the
parallel arrays, consuming `next_node_counts[i]` successor ids from
`flat_next_node_ids` for node i.  `vector::borrow` past the end of any
array aborts; `simple_map::add` aborts on a duplicate node id. -/
def build_nodes : List Nat → List Nat → List Nat → List Nat → List Nat → List Nat →
    List (Nat × Node) → Except Nat (List (Nat × Node))
  | [], _, _, _, _, _, acc => Except.ok acc
  | id :: ids, ty :: tys, tgt :: tgts, am :: ams, c :: cs, flat, acc =>
    if c ≤ flat.length then
      if alist_contains acc id then Except.error E_DUPLICATE_KEY
      else
        build_nodes ids tys tgts ams cs (flat.drop c)
          (alist_add acc id ⟨id, ty, tgt, am, [], flat.take c⟩)
    else
      Except.error E_VECTOR_OUT_OF_BOUNDS
  | _ :: _, _, _, _, _, _, _ => Except.error E_VECTOR_OUT_OF_BOUNDS

/-- `create_workflow_internal`: build an arbitrary graph from parallel
arrays; the start node is `node_ids[0]` (0 when the arrays are empty);
counter drawn and post-incremented exactly as in the simple variant. -/
def create_workflow_internal (gs : GlobalState) (account : Nat)
    (node_ids node_types target_addresses amounts next_node_counts flat_next_node_ids :
      List Nat) : Except Nat (GlobalState × Nat) :=
  let gs1 := init_workflow_store gs account
  match alist_get gs1.stores account with
  | none => Except.error E_WORKFLOW_NOT_FOUND
  | some store =>
    let workflow_id := store.next_workflow_id
    if workflow_id + 1 < U64_MODULUS then
      match build_nodes node_ids node_types target_addresses amounts next_node_counts
          flat_next_node_ids [] with
      | Except.error e => Except.error e
      | Except.ok nodes_map =>
        let start_node_id := node_ids.headD 0
        if alist_contains store.workflows workflow_id then Except.error E_DUPLICATE_KEY
        else
          let wf : Workflow := ⟨workflow_id, account, nodes_map, start_node_id, gs1.now, 0, false⟩
          let store2 : WorkflowStore :=
            ⟨alist_add store.workflows workflow_id wf, workflow_id + 1⟩
          Except.ok ({ gs1 with
            stores := alist_set gs1.stores account store2,
            events := gs1.events ++
              [Event.registered workflow_id account node_ids.length] }, workflow_id)
    else
      Except.error E_ARITHMETIC_OVERFLOW

/-- `delete_workflow` entry point: `E_WORKFLOW_NOT_FOUND` when the caller
has no store or the id is absent; otherwise remove the entry (the counter
is untouched). -/
def delete_workflow (gs : GlobalState) (caller workflow_id : Nat) :
    Except Nat GlobalState :=
  match alist_get gs.stores caller with
  | none => Except.error E_WORKFLOW_NOT_FOUND
  | some store =>
    if alist_contains store.workflows workflow_id then
      let store2 := { store with workflows := alist_remove store.workflows workflow_id }
      Except.ok { gs with stores := alist_set gs.stores caller store2 }
    else
      Except.error E_WORKFLOW_NOT_FOUND

/-- View `get_next_workflow_id`: 0 when the owner has no store. -/
def get_next_workflow_id (gs : GlobalState) (owner : Nat) : Nat :=
  match alist_get gs.stores owner with
  | none => 0
  | some store => store.next_workflow_id

/-- View `get_workflow`: `(exists, start_node_id, created_at,
last_executed_at, is_locked)`, all-false/zero when absent. -/
def get_workflow (gs : GlobalState) (owner workflow_id : Nat) :
    Bool × Nat × Nat × Nat × Bool :=
  match alist_get gs.stores owner with
  | none => (false, 0, 0, 0, false)
  | some store =>
    match alist_get store.workflows workflow_id with
    | none => (false, 0, 0, 0, false)
    | some wf => (true, wf.start_node_id, wf.created_at, wf.last_executed_at, wf.is_locked)

/-- Sequential walk of a successor list, as the source's `while` loop
performs it: visit each successor in array order at the given depth,
threading the execution state and summing the returned step counts; any
abort propagates.  `walk_and_execute` on a non-BRANCH success is proved
equal to `1 +` this function on the node's successor list. -/
def walk_successors : Nat → ExecSt → Nat → Workflow → List Nat → ExecutionContext →
    Except Nat (ExecSt × Nat)
  | _, st, _, _, [], _ => Except.ok (st, 0)
  | fuel, st, caller, wf, next_id :: rest, ctx =>
    match walk_and_execute fuel st caller wf next_id ctx with
    | Except.error e => Except.error e
    | Except.ok (st1, n) =>
      match walk_successors fuel st1 caller wf rest ctx with
      | Except.error e => Except.error e
      | Except.ok (st2, m) => Except.ok (st2, n + m)

/-- `register_and_execute_simple_transfer_workflow` entry point: register
then execute in the same transaction (an abort in either part rolls the
whole transaction back). -/
def register_and_execute_simple_transfer_workflow (gs : GlobalState)
    (account recipient amount : Nat) : Except Nat GlobalState :=
  match create_simple_transfer_workflow_internal gs account recipient amount with
  | Except.error e => Except.error e
  | Except.ok (gs1, workflow_id) => execute_workflow gs1 account workflow_id

/-- `register_and_execute_workflow` entry point. -/
def register_and_execute_workflow (gs : GlobalState) (account : Nat)
    (node_ids node_types target_addresses amounts next_node_counts flat_next_node_ids :
      List Nat) : Except Nat GlobalState :=
  match create_workflow_internal gs account node_ids node_types target_addresses amounts
      next_node_counts flat_next_node_ids with
  | Except.error e => Except.error e
  | Except.ok (gs1, workflow_id) => execute_workflow gs1 account workflow_id

/-- One transaction against the module: the five public entry points. -/
inductive Cmd
  | registerSimple (account recipient amount : Nat)
  | registerAndExecuteSimple (account recipient amount : Nat)
  | registerAndExecuteGeneric (account : Nat)
      (node_ids node_types target_addresses amounts next_node_counts flat_next_node_ids :
        List Nat)
  | execute (account workflow_id : Nat)
  | delete (account workflow_id : Nat)

/-- Effective post-state of one entry-point call: an abort leaves the
pre-state. -/
def run_entry (gs : GlobalState) (r : Except Nat GlobalState) : GlobalState :=
  match r with
  | Except.ok gs2 => gs2
  | Except.error _ => gs

/-- Transition function of the module: the effective state after one
transaction. -/
def stepCmd (gs : GlobalState) : Cmd → GlobalState
  | Cmd.registerSimple a r m => run_entry gs (register_simple_transfer_workflow gs a r m)
  | Cmd.registerAndExecuteSimple a r m =>
    run_entry gs (register_and_execute_simple_transfer_workflow gs a r m)
  | Cmd.registerAndExecuteGeneric a ids tys tgts ams cs flat =>
    run_entry gs (register_and_execute_workflow gs a ids tys tgts ams cs flat)
  | Cmd.execute a wid => run_entry gs (execute_workflow gs a wid)
  | Cmd.delete a wid => run_entry gs (delete_workflow gs a wid)

/-! Concrete states used by the closed theorems and witnesses. -/

/-- A workflow stored under address 1 whose `owner` field is address 2. -/
def c1_wf : Workflow := ⟨0, 2, [], 1, 5, 9, false⟩

def c1_store : WorkflowStore := ⟨[(0, c1_wf)], 1⟩

def c1_gs : GlobalState := ⟨[(1, c1_store)], [], [], 100⟩

/-- A chain of 21 sequential WAIT nodes: node i (1 ≤ i ≤ 20) has the single
successor i+1, node 21 has none. -/
def chain21_nodes : List (Nat × Node) :=
  (List.range 20).map (fun i => (i + 1, ⟨i + 1, NODE_TYPE_WAIT, 0, 0, [], [i + 2]⟩)) ++
    [(21, ⟨21, NODE_TYPE_WAIT, 0, 0, [], []⟩)]

def chain21_workflow : Workflow := ⟨0, 1, chain21_nodes, 1, 10, 0, false⟩

/-- Address 1 owns workflow 0, the 21-node chain; no events yet. -/
def chain21_gs : GlobalState := ⟨[(1, ⟨[(0, chain21_workflow)], 1⟩)], [], [], 777⟩

/-- A WAIT node with two successors, for exercising the fan-out walk. -/
def c2_node : Node := ⟨1, NODE_TYPE_WAIT, 0, 0, [], [2, 3]⟩

def c2_wf : Workflow :=
  ⟨0, 1, [(1, c2_node), (2, ⟨2, NODE_TYPE_END, 0, 0, [], []⟩),
    (3, ⟨3, NODE_TYPE_END, 0, 0, [], []⟩)], 1, 0, 0, false⟩

def c4_gs : GlobalState := ⟨[], [], [], 42⟩

/-- States threaded through the C10 witness scenario: register, delete the
workflow, register again. -/
def c10_pre : GlobalState := ⟨[], [], [], 42⟩

def c10_mid : GlobalState :=
  match create_simple_transfer_workflow_internal c10_pre 1 2 3 with
  | Except.ok (g, _) => g
  | Except.error _ => c10_pre

def c10_deleted : GlobalState := ([Cmd.delete 1 0]).foldl stepCmd c10_mid

def c10_post : GlobalState :=
  match create_simple_transfer_workflow_internal c10_deleted 1 4 5 with
  | Except.ok (g, _) => g
  | Except.error _ => c10_deleted

end WorkflowGraph

namespace Backend

/-!
Embedding of the relevant TypeScript backend functions.  JavaScript
strings are Lean `String`s; case folding and substring search (used by the
schedule-keyword regex) are implemented over `List Char` so that they
compute in the kernel.  Results of awaited external calls are passed in as
parameters: `Option` for a nullable result, `Except Unit` for a promise
that may reject.
-/

/-- ASCII lower-casing of one character, as `String.prototype.toLowerCase`
acts on the ASCII letters the schedule-keyword pattern consists of. -/
def lowerChar (c : Char) : Char :=
  if 65 ≤ c.toNat ∧ c.toNat ≤ 90 then Char.ofNat (c.toNat + 32) else c

/-- Lower-cased character list of a string. -/
def lowerStr (s : String) : List Char := s.data.map lowerChar

/-- Does `s` start with `pat`? -/
def charsStartWith : List Char → List Char → Bool
  | [], _ => true
  | _ :: _, [] => false
  | a :: pat, b :: s => a == b && charsStartWith pat s

/-- Does `s` contain `pat` as a contiguous substring? -/
def charsContain (pat : List Char) : List Char → Bool
  | [] => charsStartWith pat []
  | c :: rest => charsStartWith pat (c :: rest) || charsContain pat rest

/-- `BigInt(s)` for a canonical decimal string: the denoted natural number,
or `none` when the conversion would throw.  (`BigInt("")` is `0n`.) -/
def jsBigInt? (s : String) : Option Nat :=
  s.data.foldl
    (fun acc c =>
      match acc with
      | none => none
      | some n => if 48 ≤ c.toNat ∧ c.toNat ≤ 57 then some (n * 10 + (c.toNat - 48)) else none)
    (some 0)

/-! ### `AptosService.verifyPayment` -/

/-- The payload of a fetched transaction, as the route reads it:
`payload.type`, `payload.function`, `payload.type_arguments`,
`payload.arguments` (the last decoded positionally as
`[recipient, amount]`). -/
structure TxPayload where
  ptype : String
  function : String
  type_arguments : List String
  arguments : List String
deriving DecidableEq

/-- A transaction fetched from the chain: its kind string, its `vm_status`
when the fetched representation carries one (`'vm_status' in transaction`),
its payload and its sender. -/
structure ChainTx where
  ttype : String
  vm_status : Option String
  payload : TxPayload
  sender : String
deriving DecidableEq

/-- The service configuration consulted by `verifyPayment`. -/
structure VerifyConfig where
  sellerAddress : String
  requiredAmount : Nat
deriving DecidableEq

/-- The `{valid, amount?, error?}` result of `verifyPayment`. -/
structure VerifyResult where
  valid : Bool
  amount : Option Nat
  error : Option String
deriving DecidableEq

/-- `verifyPayment(txHash, senderAddress)`, with the fetched transaction
as input (`none` = not found).  Checks, in source order: existence;
`vm_status === 'Executed successfully'`; user transaction with an
entry-function payload calling `0x1::coin::transfer` on
`0x1::aptos_coin::AptosCoin`; recipient equals the seller address; paid
amount at least the required amount; transaction sender equals
`senderAddress`.  A destructured argument that is absent compares unequal
to the seller (JS `undefined !== string`); a missing or non-numeric amount
makes `BigInt` throw, which the surrounding catch turns into an invalid
result with the exception message. -/
def verifyPayment (cfg : VerifyConfig) (tx? : Option ChainTx) (senderAddress : String) :
    VerifyResult :=
  match tx? with
  | none => ⟨false, none, some "Transaction not found"⟩
  | some tx =>
    if tx.vm_status ≠ some "Executed successfully" then
      ⟨false, none, some "Transaction failed on blockchain"⟩
    else if tx.ttype = "user_transaction" ∧ tx.payload.ptype = "entry_function_payload" ∧
        tx.payload.function = "0x1::coin::transfer" ∧
        tx.payload.type_arguments.head? = some "0x1::aptos_coin::AptosCoin" then
      if tx.payload.arguments.head? ≠ some cfg.sellerAddress then
        ⟨false, none, some ("Payment sent to wrong address. Expected " ++ cfg.sellerAddress)⟩
      else
        match tx.payload.arguments.get? 1 with
        | none => ⟨false, none, some "Cannot convert undefined to a BigInt"⟩
        | some amountStr =>
          match jsBigInt? amountStr with
          | none => ⟨false, none, some "Cannot convert amount to a BigInt"⟩
          | some paidAmount =>
            if paidAmount < cfg.requiredAmount then
              ⟨false, none, some ("Insufficient payment. Required: " ++
                toString cfg.requiredAmount ++ ", Paid: " ++ toString paidAmount)⟩
            else if tx.sender ≠ senderAddress then
              ⟨false, none, some "Sender address mismatch"⟩
            else
              ⟨true, some paidAmount, none⟩
    else
      ⟨false, none, some "Not a valid APT transfer transaction"⟩

/-! ### `AptosService.getAccountBalance` and `GET /health` -/

/-- One account resource as the balance reader sees it: its type string
and the `data.coin.value` field. -/
structure AccountResource where
  rtype : String
  coinValue : String
deriving DecidableEq

/-- `getAccountBalance(address)`: find the AptosCoin coin-store resource
and read its value; `fetch` is the outcome of the `getAccountResources`
RPC.  Every failure path — a rejected fetch, a missing resource, a
malformed value — is inside the try/catch and yields 0, so the function
never throws. -/
def getAccountBalance (fetch : Except Unit (List AccountResource)) : Nat :=
  match fetch with
  | Except.error _ => 0
  | Except.ok resources =>
    match resources.find?
        (fun r => r.rtype == "0x1::coin::CoinStore<0x1::aptos_coin::AptosCoin>") with
    | some r => (jsBigInt? r.coinValue).getD 0
    | none => 0

/-- The part of the health body the claim is about, plus the HTTP status
code chosen from it. -/
structure HealthResponse where
  status : String
  database : String
  aptos : String
  httpCode : Nat
deriving DecidableEq

/-- The `GET /health` handler over the raw outcomes of its two awaited
probes: each `catch` marks the dependency `error` and degrades the overall
status; 200 when the final status is `ok`, else 503. -/
def healthHandlerRaw (dbProbe : Except Unit Unit) (aptosProbe : Except Unit Nat) :
    HealthResponse :=
  let db := match dbProbe with
    | Except.ok _ => ("ok", false)
    | Except.error _ => ("error", true)
  let ap := match aptosProbe with
    | Except.ok _ => ("ok", false)
    | Except.error _ => ("error", true)
  let status := if db.2 ∨ ap.2 then "degraded" else "ok"
  ⟨status, db.1, ap.1, if status = "ok" then 200 else 503⟩

/-- The handler as wired: the chain probe awaits `getAccountBalance`,
which is total, so its promise always resolves and the aptos catch branch
is dead code. -/
def healthHandler (dbProbe : Except Unit Unit) (chainFetch : Except Unit (List AccountResource)) :
    HealthResponse :=
  healthHandlerRaw dbProbe (Except.ok (getAccountBalance chainFetch))

/-! ### The streaming route's trigger post-processing -/

/-- A partial trigger object emitted by the model: its `type`, `schedule`
and `cron` properties (`none` = property absent). -/
structure GenTrigger where
  ttype : Option String
  schedule : Option String
  cron : Option String
deriving DecidableEq

/-- The trigger node frame the route writes to the SSE stream: the final
`type` and the `schedule`/`cron` properties after the object spread. -/
structure TriggerFrame where
  ftype : String
  schedule : Option String
  cron : Option String
deriving DecidableEq

def scheduleWords : List String :=
  ["every", "daily", "weekly", "monthly", "hourly", "cron", "schedule"]

def weekdays : List String :=
  ["monday", "tuesday", "wednesday", "thursday", "friday", "saturday", "sunday"]

/-- The route's schedule-keyword test: the case-insensitive regular
expression
`every|daily|weekly|monthly|hourly|cron|schedule|at \d|on (monday|...|sunday)`
applied to the prompt, expressed as substring containment over the
lower-cased prompt (every alternative is a literal except `at \d`, which
is `"at "` followed by one decimal digit). -/
def hasScheduleKeywords (prompt : String) : Bool :=
  let lp := lowerStr prompt
  scheduleWords.any (fun w => charsContain w.data lp) ||
  (List.range 10).any (fun d => charsContain ("at ".data ++ [Char.ofNat (48 + d)]) lp) ||
  weekdays.any (fun day => charsContain ("on ".data ++ day.data) lp)

/-- The in-place fix applied to each partial object before any frame is
written: when the trigger's type is `schedule_trigger` and the prompt has
no schedule keywords, rewrite the type to `manual_trigger` and delete the
`schedule` and `cron` properties. -/
def postProcessTrigger (kw : Bool) (t : GenTrigger) : GenTrigger :=
  if t.ttype = some "schedule_trigger" ∧ kw = false then
    ⟨some "manual_trigger", none, none⟩
  else t

/-- The trigger node frame built for the write: `triggerType` is the
trigger's type defaulted to `manual_trigger` and downgraded once more when
it is `schedule_trigger` without keywords; the object spread then lets the
trigger's own `type` property, when present, overwrite `triggerType`. -/
def sentTriggerFrame (kw : Bool) (t0 : GenTrigger) : TriggerFrame :=
  let t := postProcessTrigger kw t0
  let ty1 := t.ttype.getD "manual_trigger"
  let ty2 := if ty1 = "schedule_trigger" ∧ kw = false then "manual_trigger" else ty1
  ⟨match t.ttype with
    | some ty => ty
    | none => ty2, t.schedule, t.cron⟩

/-! ### `rateLimitByWallet` -/

/-- One row of the `RateLimit` table; `windowStart` in epoch
milliseconds. -/
structure RateLimitRow where
  rid : Nat
  walletAddress : String
  requestCount : Nat
  windowStart : Int
deriving DecidableEq

/-- What the middleware does with the response: reject with a status code
and a `retryAfter`, or fall through to `next()`. -/
inductive RLOutcome
  | reject (httpStatus : Nat) (retryAfter : Int)
  | proceed
deriving DecidableEq

/-- The rolling window width, one hour in milliseconds. -/
def HOUR_MS : Int := 3600000

/-- `Math.ceil(x / 1000)` on an integer numerator. -/
def ceilDivThousand (x : Int) : Int := Int.fdiv (x + 999) 1000

/-- The row the `findFirst` query returns: the first row for this wallet
whose `windowStart` is within the last hour. -/
def findWindowRow (rows : List RateLimitRow) (sender : String) (now : Int) :
    Option RateLimitRow :=
  rows.find? (fun r => r.walletAddress == sender && decide (now - HOUR_MS ≤ r.windowStart))

/-- `rateLimitByWallet` over the row table: a falsy `sender` (absent or
empty) passes through untouched; a found row at or above the threshold is
rejected 429 with the seconds (rounded up) until its window ends; a found
row under the threshold has its counter incremented; no row creates a
fresh one with count 1 at `now`.  Returns the table afterwards and the
response outcome. -/
def rateLimitByWallet (rows : List RateLimitRow) (threshold : Nat)
    (sender : Option String) (now : Int) (freshId : Nat) :
    List RateLimitRow × RLOutcome :=
  match sender with
  | none => (rows, RLOutcome.proceed)
  | some s =>
    if s = "" then (rows, RLOutcome.proceed)
    else
      match findWindowRow rows s now with
      | some row =>
        if threshold ≤ row.requestCount then
          (rows, RLOutcome.reject 429 (ceilDivThousand (row.windowStart + HOUR_MS - now)))
        else
          (rows.map (fun r => if r.rid = row.rid then
            { r with requestCount := r.requestCount + 1 } else r), RLOutcome.proceed)
      | none => (rows ++ [⟨freshId, s, 1, now⟩], RLOutcome.proceed)

/-! ### `AptosService.storePayment` -/

structure DbUser where
  uid : String
  walletAddress : String
deriving DecidableEq

/-- One `Payment` row; times in epoch milliseconds. -/
structure PaymentRow where
  pid : String
  userId : String
  txHash : String
  amount : Nat
  status : String
  verifiedAt : Int
  expiresAt : Int
deriving DecidableEq

/-- The slice of the database `storePayment` touches. -/
structure PayDb where
  users : List DbUser
  payments : List PaymentRow
deriving DecidableEq

/-- `storePayment(walletAddress, txHash, amount)`: get-or-create the user;
when a payment with this `txHash` already exists return its id; otherwise
create one VERIFIED payment expiring `expiryHours` after `now`.  `freshUserId`
and `freshPaymentId` model the ids the database would mint.  Returns the
database afterwards and `(paymentId, userId)`. -/
def storePayment (db : PayDb) (walletAddress txHash : String) (amount : Nat)
    (now : Int) (expiryHours : Int) (freshUserId freshPaymentId : String) :
    PayDb × String × String :=
  let found := db.users.find? (fun u => u.walletAddress == walletAddress)
  let user := match found with
    | some u => u
    | none => ⟨freshUserId, walletAddress⟩
  let db1 := match found with
    | some _ => db
    | none => { db with users := db.users ++ [user] }
  match db1.payments.find? (fun p => p.txHash == txHash) with
  | some p => (db1, p.pid, user.uid)
  | none =>
    let expiresAt := now + expiryHours * HOUR_MS
    let pay : PaymentRow := ⟨freshPaymentId, user.uid, txHash, amount, "VERIFIED", now, expiresAt⟩
    ({ db1 with payments := db1.payments ++ [pay] }, freshPaymentId, user.uid)

/-- The transaction used by the C5 witness: a successful user transaction
paying 150 to the seller. -/
def c5_tx : ChainTx :=
  ⟨"user_transaction", some "Executed successfully",
    ⟨"entry_function_payload", "0x1::coin::transfer", ["0x1::aptos_coin::AptosCoin"],
      ["0xseller", "150"]⟩, "0xsender"⟩

end Backend

namespace WorkflowGraph

/-! Association-list laws used throughout the proofs. -/

theorem alist_get_append {α : Type} (m₁ m₂ : List (Nat × α)) (k : Nat) :
    alist_get (m₁ ++ m₂) k =
      match alist_get m₁ k with
      | some v => some v
      | none => alist_get m₂ k := by
  induction m₁ with
  | nil => simp [alist_get]
  | cons e m ih =>
    rw [List.cons_append]
    simp only [alist_get]
    by_cases h : e.1 = k <;> simp [h, ih]

theorem alist_get_set_self {α : Type} (m : List (Nat × α)) (k : Nat) (v : α)
    (h : (alist_get m k).isSome) : alist_get (alist_set m k v) k = some v := by
  induction m with
  | nil => simp [alist_get] at h
  | cons e m ih =>
    simp only [alist_get] at h
    simp only [alist_set, List.map_cons]
    by_cases he : e.1 = k
    · simp [he, alist_get]
    · rw [show ((if e.1 == k then (k, v) else e) : Nat × α) = e from by simp [he]]
      simp only [alist_get, he, if_false]
      simp only [he, if_false] at h
      exact ih h

theorem alist_get_set_ne {α : Type} (m : List (Nat × α)) (k k' : Nat) (v : α)
    (h : k' ≠ k) : alist_get (alist_set m k v) k' = alist_get m k' := by
  induction m with
  | nil => rfl
  | cons e m ih =>
    show alist_get (((if e.1 == k then (k, v) else e) : Nat × α) :: alist_set m k v) k'
      = alist_get (e :: m) k'
    by_cases he : e.1 = k
    · rw [if_pos (by simp [he])]
      simp only [alist_get]
      rw [if_neg (Ne.symm h), ih, if_neg (by rw [he]; exact Ne.symm h)]
    · rw [if_neg (by simp [he])]
      simp only [alist_get]
      by_cases h2 : e.1 = k' <;> simp [h2, ih]

theorem alist_get_add_self {α : Type} (m : List (Nat × α)) (k : Nat) (v : α)
    (h : alist_get m k = none) : alist_get (alist_add m k v) k = some v := by
  rw [alist_add, alist_get_append, h]
  simp [alist_get]

theorem alist_get_add_ne {α : Type} (m : List (Nat × α)) (k k' : Nat) (v : α)
    (h : k' ≠ k) : alist_get (alist_add m k v) k' = alist_get m k' := by
  rw [alist_add, alist_get_append]
  cases hm : alist_get m k' with
  | some w => rfl
  | none => simp [alist_get, Ne.symm h]

/-- C1: for every stored workflow whose `owner` field differs from the
calling account, `execute_workflow` aborts with `E_NOT_OWNER`
(PermissionDenied, abort code 2); the abort rolls the transaction back, so
the effective post-state is the pre-state and the stored workflow — in
particular its `is_locked` and `last_executed_at` fields — is unchanged. -/
theorem C1_nonowner_execute_aborts_permission_denied
    (gs : GlobalState) (caller workflow_id : Nat) (store : WorkflowStore) (wf : Workflow)
    (hstore : alist_get gs.stores caller = some store)
    (hwf : alist_get store.workflows workflow_id = some wf)
    (howner : wf.owner ≠ caller) :
    run_execute_workflow gs caller workflow_id = (gs, some E_NOT_OWNER) ∧
    alist_get ((run_execute_workflow gs caller workflow_id).1.stores) caller = some store ∧
    alist_get store.workflows workflow_id = some wf ∧
    wf.is_locked = wf.is_locked ∧ wf.last_executed_at = wf.last_executed_at := by
  have hrun : run_execute_workflow gs caller workflow_id = (gs, some E_NOT_OWNER) := by
    unfold run_execute_workflow execute_workflow
    simp only [hstore, hwf]
    rw [if_pos howner]
  exact ⟨hrun, by rw [hrun]; exact hstore, hwf, rfl, rfl⟩

/-- C1 witness: in `c1_gs`, address 1's store holds workflow 0 whose owner
field is address 2; executing it as address 1 aborts with `E_NOT_OWNER`
and leaves the state untouched. -/
theorem C1_witness :
    run_execute_workflow c1_gs 1 0 = (c1_gs, some E_NOT_OWNER) :=
  (C1_nonowner_execute_aborts_permission_denied c1_gs 1 0 c1_store c1_wf
    (by decide) (by decide) (by decide)).1

/-- The fold the walk performs over a successor list is the sequential
successor walk, with the accumulator added on top. -/
theorem foldlM_walk_eq_walk_successors (fuel caller : Nat) (wf : Workflow)
    (ctx : ExecutionContext) :
    ∀ (ids : List Nat) (st : ExecSt) (acc : Nat),
      ids.foldlM
        (fun p next_id =>
          match walk_and_execute fuel p.1 caller wf next_id ctx with
          | Except.error e => Except.error e
          | Except.ok (st3, n) => Except.ok (st3, p.2 + n))
        (st, acc)
      = match walk_successors fuel st caller wf ids ctx with
        | Except.error e => Except.error e
        | Except.ok (st2, m) => Except.ok (st2, acc + m) := by
  intro ids
  induction ids with
  | nil =>
    intro st acc
    show Except.ok (st, acc) = _
    simp [walk_successors]
  | cons x xs ih =>
    intro st acc
    rw [List.foldlM_cons]
    cases hw : walk_and_execute fuel st caller wf x ctx with
    | error e =>
      simp only [walk_successors, hw]
      rfl
    | ok p =>
      obtain ⟨st1, n⟩ := p
      simp only [walk_successors, hw]
      show List.foldlM _ (st1, acc + n) xs = _
      rw [ih st1 (acc + n)]
      cases hws : walk_successors fuel st1 caller wf xs ctx with
      | error e => rfl
      | ok q => obtain ⟨st2, m⟩ := q; simp [Nat.add_assoc]

/-- C2: structure of one step of the recursive walk, given that the depth
guard passes, the node exists, and its dispatch returned without aborting.
When dispatch reported failure the step returns 1 and visits no successor.
When it reported success: a BRANCH node with at least two successors
recurses into successor index 0 only (at depth + 1), returning 1 plus that
step count; a BRANCH node with fewer than two successors visits nothing
and returns 1; every other node type walks its entire successor list in
array order (`walk_successors`, at depth + 1), returning 1 plus the sum of
the recursive step counts. -/
theorem C2_walk_recursion_structure
    (fuel : Nat) (st : ExecSt) (caller : Nat) (wf : Workflow) (node_id : Nat)
    (ctx : ExecutionContext) (node : Node) (st1 : ExecSt) (success : Bool) (error_code : Nat)
    (hdepth : ctx.current_depth < MAX_RECURSION_DEPTH)
    (hnode : alist_get wf.nodes node_id = some node)
    (hdisp : dispatch_node st caller node ctx = Except.ok (st1, success, error_code)) :
    (success = false →
      walk_and_execute (fuel + 1) st caller wf node_id ctx =
        Except.ok (emit_step st1 ctx node_id node success error_code, 1)) ∧
    (success = true → node.node_type = NODE_TYPE_BRANCH →
      (2 ≤ node.next_ids.length →
        walk_and_execute (fuel + 1) st caller wf node_id ctx =
          match walk_and_execute fuel (emit_step st1 ctx node_id node success error_code)
              caller wf (node.next_ids.getD 0 0) (bump_depth ctx) with
          | Except.error e => Except.error e
          | Except.ok (st3, n) => Except.ok (st3, 1 + n)) ∧
      (node.next_ids.length < 2 →
        walk_and_execute (fuel + 1) st caller wf node_id ctx =
          Except.ok (emit_step st1 ctx node_id node success error_code, 1))) ∧
    (success = true → node.node_type ≠ NODE_TYPE_BRANCH →
      walk_and_execute (fuel + 1) st caller wf node_id ctx =
        match walk_successors fuel (emit_step st1 ctx node_id node success error_code)
            caller wf node.next_ids (bump_depth ctx) with
        | Except.error e => Except.error e
        | Except.ok (st2, m) => Except.ok (st2, 1 + m)) := by
  have hbody : walk_and_execute (fuel + 1) st caller wf node_id ctx =
      (if success then
        (if node.node_type = NODE_TYPE_BRANCH then
          (if 2 ≤ node.next_ids.length then
            match walk_and_execute fuel (emit_step st1 ctx node_id node success error_code)
                caller wf (node.next_ids.getD 0 0) (bump_depth ctx) with
            | Except.error e => Except.error e
            | Except.ok (st3, n) => Except.ok (st3, 1 + n)
          else
            Except.ok (emit_step st1 ctx node_id node success error_code, 1))
        else
          node.next_ids.foldlM
            (fun acc next_id =>
              match walk_and_execute fuel acc.1 caller wf next_id (bump_depth ctx) with
              | Except.error e => Except.error e
              | Except.ok (st3, n) => Except.ok (st3, acc.2 + n))
            (emit_step st1 ctx node_id node success error_code, 1))
      else
        Except.ok (emit_step st1 ctx node_id node success error_code, 1)) := by
    simp only [walk_and_execute]
    rw [if_pos hdepth]
    simp only [hnode, hdisp]
    simp
  refine ⟨?_, ?_, ?_⟩
  · intro hs
    rw [hbody, hs, if_neg (by simp)]
  · intro hs hb
    subst hs
    constructor
    · intro hlen
      rw [hbody, if_pos rfl, if_pos hb, if_pos hlen]
    · intro hlen
      rw [hbody, if_pos rfl, if_pos hb, if_neg (by omega)]
  · intro hs hb
    subst hs
    rw [hbody, if_pos rfl, if_neg hb,
      foldlM_walk_eq_walk_successors fuel caller wf (bump_depth ctx) node.next_ids
        (emit_step st1 ctx node_id node true error_code) 1]

/-- C2 witness: for the WAIT node 1 of `c2_wf`, whose successors are
[2, 3], one walk step at depth 0 equals 1 plus the sequential walk of both
successors at depth 1. -/
theorem C2_witness :
    walk_and_execute 6 ⟨[], []⟩ 1 c2_wf 1 ⟨0, 0, 1⟩ =
      match walk_successors 5 (emit_step ⟨[], []⟩ ⟨0, 0, 1⟩ 1 c2_node true 0)
          1 c2_wf c2_node.next_ids (bump_depth ⟨0, 0, 1⟩) with
      | Except.error e => Except.error e
      | Except.ok (st2, m) => Except.ok (st2, 1 + m) :=
  (C2_walk_recursion_structure 5 ⟨[], []⟩ 1 c2_wf 1 ⟨0, 0, 1⟩ c2_node ⟨[], []⟩ true 0
    (by decide) (by decide) rfl).2.2 rfl (by decide)

theorem init_workflow_store_now (gs : GlobalState) (a : Nat) :
    (init_workflow_store gs a).now = gs.now := by
  unfold init_workflow_store
  split <;> rfl

theorem init_workflow_store_events (gs : GlobalState) (a : Nat) :
    (init_workflow_store gs a).events = gs.events := by
  unfold init_workflow_store
  split <;> rfl

theorem get_next_eq_of_get (gs : GlobalState) (b : Nat) (store : WorkflowStore)
    (h : alist_get gs.stores b = some store) :
    get_next_workflow_id gs b = store.next_workflow_id := by
  unfold get_next_workflow_id
  rw [h]

/-- C4: with `store` the caller's store after lazy initialization (so a
fresh account has `store = ⟨[], 0⟩` and counter 0, last conjunct),
registering a simple transfer workflow for recipient R and amount A
succeeds, assigns the id `store.next_workflow_id`, post-increments the
counter by exactly 1, stores under that id a workflow whose node map is
exactly [TRANSFER node 1 → R/A with successors [2]; END node 2 with no
successors] with `start_node_id = 1`, and appends exactly one
`WorkflowRegisteredEvent` with `node_count = 2`. -/
theorem C4_register_simple_transfer_shape
    (gs : GlobalState) (account recipient amount : Nat) (store : WorkflowStore)
    (hstore : alist_get (init_workflow_store gs account).stores account = some store)
    (hof : store.next_workflow_id + 1 < U64_MODULUS)
    (hfresh : alist_get store.workflows store.next_workflow_id = none) :
    ∃ gs2, create_simple_transfer_workflow_internal gs account recipient amount =
        Except.ok (gs2, store.next_workflow_id) ∧
      get_next_workflow_id gs2 account = store.next_workflow_id + 1 ∧
      (∃ store2, alist_get gs2.stores account = some store2 ∧
        store2.next_workflow_id = store.next_workflow_id + 1 ∧
        alist_get store2.workflows store.next_workflow_id = some
          ⟨store.next_workflow_id, account,
            [(1, simple_transfer_node recipient amount), (2, simple_end_node)], 1,
            gs.now, 0, false⟩) ∧
      gs2.events = gs.events ++ [Event.registered store.next_workflow_id account 2] ∧
      (alist_get gs.stores account = none → store.next_workflow_id = 0) := by
  have hcontains : alist_contains store.workflows store.next_workflow_id = false := by
    unfold alist_contains
    rw [hfresh]
    rfl
  have hsome : (alist_get (init_workflow_store gs account).stores account).isSome := by
    rw [hstore]
    rfl
  have hcreate : create_simple_transfer_workflow_internal gs account recipient amount =
      Except.ok ({ init_workflow_store gs account with
        stores := alist_set (init_workflow_store gs account).stores account
          ⟨alist_add store.workflows store.next_workflow_id
            ⟨store.next_workflow_id, account,
              [(1, simple_transfer_node recipient amount), (2, simple_end_node)], 1,
              (init_workflow_store gs account).now, 0, false⟩,
            store.next_workflow_id + 1⟩,
        events := (init_workflow_store gs account).events ++
          [Event.registered store.next_workflow_id account 2] },
        store.next_workflow_id) := by
    unfold create_simple_transfer_workflow_internal
    simp only [hstore, hof, if_true, hcontains, Bool.false_eq_true, if_false]
    rfl
  refine ⟨_, hcreate, ?_, ⟨_, alist_get_set_self _ _ _ hsome, rfl, ?_⟩, ?_, ?_⟩
  · rw [get_next_eq_of_get _ _ _ (alist_get_set_self _ _ _ hsome)]
  · rw [init_workflow_store_now]
    exact alist_get_add_self _ _ _ hfresh
  · show (init_workflow_store gs account).events ++ _ = _
    rw [init_workflow_store_events]
  · intro hnone
    have hcf : alist_contains gs.stores account = false := by
      unfold alist_contains
      rw [hnone]
      rfl
    unfold init_workflow_store at hstore
    rw [hcf] at hstore
    simp only [Bool.false_eq_true, if_false] at hstore
    rw [alist_get_add_self _ _ _ hnone] at hstore
    cases hstore
    rfl

/-- C4 witness: on the empty state, registering recipient 9 for amount 5
under account 1 succeeds and assigns workflow id 0. -/
theorem C4_witness :
    ∃ gs2, create_simple_transfer_workflow_internal c4_gs 1 9 5 = Except.ok (gs2, 0) := by
  obtain ⟨gs2, h1, _⟩ := C4_register_simple_transfer_shape c4_gs 1 9 5 ⟨[], 0⟩
    (by decide) (by decide) (by decide)
  exact ⟨gs2, h1⟩

theorem alist_get_remove_self {α : Type} (m : List (Nat × α)) (k : Nat) :
    alist_get (alist_remove m k) k = none := by
  induction m with
  | nil => rfl
  | cons e m ih =>
    unfold alist_remove at ih ⊢
    rw [List.filter_cons]
    by_cases he : e.1 = k
    · simp [he, ih]
    · simp only [bne_iff_ne, ne_eq, he, not_false_eq_true, if_true]
      simp only [alist_get, he, if_false]
      exact ih

theorem get_next_init_workflow_store (gs : GlobalState) (a b : Nat) :
    get_next_workflow_id (init_workflow_store gs a) b = get_next_workflow_id gs b := by
  unfold init_workflow_store
  by_cases h : alist_contains gs.stores a
  · rw [if_pos h]
  · rw [if_neg h]
    unfold get_next_workflow_id
    by_cases hab : b = a
    · subst hab
      have hnone : alist_get gs.stores b = none := by
        unfold alist_contains at h
        cases hx : alist_get gs.stores b with
        | none => rfl
        | some s => rw [hx] at h; exact absurd rfl h
      rw [hnone]
      show (match alist_get (alist_add gs.stores b ⟨[], 0⟩) b with
        | none => 0
        | some store => store.next_workflow_id) = 0
      rw [alist_get_add_self _ _ _ hnone]
    · show (match alist_get (alist_add gs.stores a ⟨[], 0⟩) b with
        | none => 0
        | some store => store.next_workflow_id) = _
      rw [alist_get_add_ne _ _ _ _ hab]

theorem get_next_mk (sts : List (Nat × WorkflowStore)) (bal : List (Nat × Nat))
    (ev : List Event) (n b : Nat) :
    get_next_workflow_id ⟨sts, bal, ev, n⟩ b =
      match alist_get sts b with
      | none => 0
      | some store => store.next_workflow_id := rfl

/-- Counter effect of `create_simple_transfer_workflow_internal`: the
assigned id is the pre-call counter, the caller's counter is
post-incremented by exactly 1, and no other account's counter moves. -/
theorem create_simple_counter (gs : GlobalState) (a r m : Nat) (gs2 : GlobalState) (wid : Nat)
    (h : create_simple_transfer_workflow_internal gs a r m = Except.ok (gs2, wid)) :
    wid = get_next_workflow_id gs a ∧ get_next_workflow_id gs2 a = wid + 1 ∧
    ∀ b, b ≠ a → get_next_workflow_id gs2 b = get_next_workflow_id gs b := by
  simp only [create_simple_transfer_workflow_internal] at h
  split at h
  · cases h
  · rename_i store hstore
    split at h
    · split at h
      · cases h
      · injection h with h'
        injection h' with hgs hwid
        subst hgs
        subst hwid
        have hsome : (alist_get (init_workflow_store gs a).stores a).isSome := by
          rw [hstore]; rfl
        refine ⟨?_, ?_, ?_⟩
        · rw [← get_next_init_workflow_store gs a a, get_next_eq_of_get _ _ _ hstore]
        · rw [get_next_mk, alist_get_set_self _ _ _ hsome]
        · intro b hb
          rw [get_next_mk, alist_get_set_ne _ _ _ _ hb,
            ← get_next_init_workflow_store gs a b]
          rfl
    · cases h

/-- Counter effect of `create_workflow_internal`: same as the simple
variant. -/
theorem create_generic_counter (gs : GlobalState) (a : Nat)
    (ids tys tgts ams counts flat : List Nat) (gs2 : GlobalState) (wid : Nat)
    (h : create_workflow_internal gs a ids tys tgts ams counts flat = Except.ok (gs2, wid)) :
    wid = get_next_workflow_id gs a ∧ get_next_workflow_id gs2 a = wid + 1 ∧
    ∀ b, b ≠ a → get_next_workflow_id gs2 b = get_next_workflow_id gs b := by
  simp only [create_workflow_internal] at h
  split at h
  · cases h
  · rename_i store hstore
    split at h
    · split at h
      · cases h
      · split at h
        · cases h
        · injection h with h'
          injection h' with hgs hwid
          subst hgs
          subst hwid
          have hsome : (alist_get (init_workflow_store gs a).stores a).isSome := by
            rw [hstore]; rfl
          refine ⟨?_, ?_, ?_⟩
          · rw [← get_next_init_workflow_store gs a a, get_next_eq_of_get _ _ _ hstore]
          · rw [get_next_mk, alist_get_set_self _ _ _ hsome]
          · intro b hb
            rw [get_next_mk, alist_get_set_ne _ _ _ _ hb,
              ← get_next_init_workflow_store gs a b]
            rfl
    · cases h

/-- `execute_workflow` never changes any account's counter. -/
theorem execute_counter (gs : GlobalState) (a wid : Nat) (gs2 : GlobalState)
    (h : execute_workflow gs a wid = Except.ok gs2) :
    ∀ b, get_next_workflow_id gs2 b = get_next_workflow_id gs b := by
  simp only [execute_workflow] at h
  split at h
  · cases h
  · rename_i store hstore
    split at h
    · cases h
    · split at h
      · cases h
      · split at h
        · cases h
        · split at h
          · cases h
          · injection h with hgs
            subst hgs
            have hsome : (alist_get gs.stores a).isSome := by rw [hstore]; rfl
            intro b
            by_cases hb : b = a
            · subst hb
              rw [get_next_mk, alist_get_set_self _ _ _ hsome,
                get_next_eq_of_get _ _ _ hstore]
            · rw [get_next_mk, alist_get_set_ne _ _ _ _ hb]
              rfl

/-- `delete_workflow` removes the entry and touches no counter. -/
theorem delete_spec (gs : GlobalState) (a wid : Nat) (gs2 : GlobalState)
    (h : delete_workflow gs a wid = Except.ok gs2) :
    (∀ b, get_next_workflow_id gs2 b = get_next_workflow_id gs b) ∧
    ∃ store2, alist_get gs2.stores a = some store2 ∧
      alist_contains store2.workflows wid = false := by
  simp only [delete_workflow] at h
  split at h
  · cases h
  · rename_i store hstore
    split at h
    · injection h with hgs
      subst hgs
      have hsome : (alist_get gs.stores a).isSome := by rw [hstore]; rfl
      constructor
      · intro b
        by_cases hb : b = a
        · subst hb
          rw [get_next_mk, alist_get_set_self _ _ _ hsome,
            get_next_eq_of_get _ _ _ hstore]
        · rw [get_next_mk, alist_get_set_ne _ _ _ _ hb]
          rfl
      · refine ⟨_, alist_get_set_self _ _ _ hsome, ?_⟩
        show alist_contains (alist_remove store.workflows wid) wid = false
        unfold alist_contains
        rw [alist_get_remove_self]
        rfl
    · cases h

/-- No single transaction decreases any account's workflow-id counter. -/
theorem stepCmd_counter_mono (gs : GlobalState) (cmd : Cmd) (b : Nat) :
    get_next_workflow_id gs b ≤ get_next_workflow_id (stepCmd gs cmd) b := by
  cases cmd with
  | registerSimple a r m =>
    show get_next_workflow_id gs b ≤
      get_next_workflow_id (run_entry gs (register_simple_transfer_workflow gs a r m)) b
    unfold register_simple_transfer_workflow
    cases hc : create_simple_transfer_workflow_internal gs a r m with
    | error e => exact Nat.le_refl _
    | ok p =>
      obtain ⟨g1, wid⟩ := p
      obtain ⟨h1, h2, h3⟩ := create_simple_counter gs a r m g1 wid hc
      show get_next_workflow_id gs b ≤ get_next_workflow_id g1 b
      by_cases hb : b = a
      · subst hb
        rw [h2, ← h1]
        exact Nat.le_succ _
      · rw [h3 b hb]
  | registerAndExecuteSimple a r m =>
    show get_next_workflow_id gs b ≤
      get_next_workflow_id
        (run_entry gs (register_and_execute_simple_transfer_workflow gs a r m)) b
    unfold register_and_execute_simple_transfer_workflow
    cases hc : create_simple_transfer_workflow_internal gs a r m with
    | error e => exact Nat.le_refl _
    | ok p =>
      obtain ⟨g1, wid⟩ := p
      show get_next_workflow_id gs b ≤
        get_next_workflow_id (run_entry gs (execute_workflow g1 a wid)) b
      cases he : execute_workflow g1 a wid with
      | error e => exact Nat.le_refl _
      | ok g2 =>
        show get_next_workflow_id gs b ≤ get_next_workflow_id g2 b
        rw [execute_counter g1 a wid g2 he b]
        obtain ⟨h1, h2, h3⟩ := create_simple_counter gs a r m g1 wid hc
        by_cases hb : b = a
        · subst hb
          rw [h2, ← h1]
          exact Nat.le_succ _
        · rw [h3 b hb]
  | registerAndExecuteGeneric a ids tys tgts ams counts flat =>
    show get_next_workflow_id gs b ≤
      get_next_workflow_id
        (run_entry gs (register_and_execute_workflow gs a ids tys tgts ams counts flat)) b
    unfold register_and_execute_workflow
    cases hc : create_workflow_internal gs a ids tys tgts ams counts flat with
    | error e => exact Nat.le_refl _
    | ok p =>
      obtain ⟨g1, wid⟩ := p
      show get_next_workflow_id gs b ≤
        get_next_workflow_id (run_entry gs (execute_workflow g1 a wid)) b
      cases he : execute_workflow g1 a wid with
      | error e => exact Nat.le_refl _
      | ok g2 =>
        show get_next_workflow_id gs b ≤ get_next_workflow_id g2 b
        rw [execute_counter g1 a wid g2 he b]
        obtain ⟨h1, h2, h3⟩ := create_generic_counter gs a ids tys tgts ams counts flat g1 wid hc
        by_cases hb : b = a
        · subst hb
          rw [h2, ← h1]
          exact Nat.le_succ _
        · rw [h3 b hb]
  | execute a wid =>
    show get_next_workflow_id gs b ≤
      get_next_workflow_id (run_entry gs (execute_workflow gs a wid)) b
    cases he : execute_workflow gs a wid with
    | error e => exact Nat.le_refl _
    | ok g2 =>
      show get_next_workflow_id gs b ≤ get_next_workflow_id g2 b
      rw [execute_counter gs a wid g2 he b]
  | delete a wid =>
    show get_next_workflow_id gs b ≤
      get_next_workflow_id (run_entry gs (delete_workflow gs a wid)) b
    cases hd : delete_workflow gs a wid with
    | error e => exact Nat.le_refl _
    | ok g2 =>
      show get_next_workflow_id gs b ≤ get_next_workflow_id g2 b
      rw [(delete_spec gs a wid g2 hd).1 b]

/-- Counter monotonicity along any sequence of transactions. -/
theorem foldl_counter_mono (cmds : List Cmd) :
    ∀ (gs : GlobalState) (b : Nat),
      get_next_workflow_id gs b ≤ get_next_workflow_id (cmds.foldl stepCmd gs) b := by
  induction cmds with
  | nil => intro gs b; exact Nat.le_refl _
  | cons c rest ih =>
    intro gs b
    rw [List.foldl_cons]
    exact Nat.le_trans (stepCmd_counter_mono gs c b) (ih (stepCmd gs c) b)

/-- C10: each registration (simple or generic) assigns the pre-call
counter value as the workflow id and post-increments the counter by
exactly 1; `delete_workflow` removes the entry without touching any
counter; the counter never decreases across any sequence of entry-point
transactions; hence an id assigned by a registration is strictly smaller
than the id of every later registration under the same account — even
after the workflow holding it has been deleted — so ids are never
reassigned. -/
theorem C10_workflow_ids_never_reassigned :
    (∀ gs a r m gs2 wid,
      create_simple_transfer_workflow_internal gs a r m = Except.ok (gs2, wid) →
      wid = get_next_workflow_id gs a ∧ get_next_workflow_id gs2 a = wid + 1) ∧
    (∀ gs a ids tys tgts ams counts flat gs2 wid,
      create_workflow_internal gs a ids tys tgts ams counts flat = Except.ok (gs2, wid) →
      wid = get_next_workflow_id gs a ∧ get_next_workflow_id gs2 a = wid + 1) ∧
    (∀ gs a wid gs2, delete_workflow gs a wid = Except.ok gs2 →
      (∀ b, get_next_workflow_id gs2 b = get_next_workflow_id gs b) ∧
      ∃ store2, alist_get gs2.stores a = some store2 ∧
        alist_contains store2.workflows wid = false) ∧
    (∀ (cmds : List Cmd) (gs : GlobalState) (b : Nat),
      get_next_workflow_id gs b ≤
        get_next_workflow_id (List.foldl stepCmd gs cmds) b) ∧
    (∀ (gs : GlobalState) (a r m : Nat) (gs1 : GlobalState) (wid : Nat) (cmds : List Cmd)
        (r2 m2 : Nat) (gs2 : GlobalState) (wid2 : Nat),
      create_simple_transfer_workflow_internal gs a r m = Except.ok (gs1, wid) →
      create_simple_transfer_workflow_internal (List.foldl stepCmd gs1 cmds) a r2 m2 =
        Except.ok (gs2, wid2) →
      wid < wid2) ∧
    (∀ (gs : GlobalState) (a r m : Nat) (gs1 : GlobalState) (wid : Nat) (cmds : List Cmd)
        (ids tys tgts ams counts flat : List Nat) (gs2 : GlobalState) (wid2 : Nat),
      create_simple_transfer_workflow_internal gs a r m = Except.ok (gs1, wid) →
      create_workflow_internal (List.foldl stepCmd gs1 cmds) a ids tys tgts ams counts flat =
        Except.ok (gs2, wid2) →
      wid < wid2) := by
  refine ⟨?_, ?_, ?_, ?_, ?_, ?_⟩
  · intro gs a r m gs2 wid h
    obtain ⟨h1, h2, _⟩ := create_simple_counter gs a r m gs2 wid h
    exact ⟨h1, h2⟩
  · intro gs a ids tys tgts ams counts flat gs2 wid h
    obtain ⟨h1, h2, _⟩ := create_generic_counter gs a ids tys tgts ams counts flat gs2 wid h
    exact ⟨h1, h2⟩
  · intro gs a wid gs2 h
    exact delete_spec gs a wid gs2 h
  · intro cmds gs b
    exact foldl_counter_mono cmds gs b
  · intro gs a r m gs1 wid cmds r2 m2 gs2 wid2 h1 h2
    obtain ⟨_, hpost1, _⟩ := create_simple_counter gs a r m gs1 wid h1
    obtain ⟨hassign2, _, _⟩ := create_simple_counter _ a r2 m2 gs2 wid2 h2
    have hmono := foldl_counter_mono cmds gs1 a
    rw [hpost1] at hmono
    rw [hassign2]
    exact Nat.lt_of_lt_of_le (Nat.lt_succ_self wid) hmono
  · intro gs a r m gs1 wid cmds ids tys tgts ams counts flat gs2 wid2 h1 h2
    obtain ⟨_, hpost1, _⟩ := create_simple_counter gs a r m gs1 wid h1
    obtain ⟨hassign2, _, _⟩ := create_generic_counter _ a ids tys tgts ams counts flat gs2 wid2 h2
    have hmono := foldl_counter_mono cmds gs1 a
    rw [hpost1] at hmono
    rw [hassign2]
    exact Nat.lt_of_lt_of_le (Nat.lt_succ_self wid) hmono

/-- C10 witness: register under account 1 (id 0 assigned), delete workflow
0, register again: the new id is 1, not a reuse of 0. -/
theorem C10_witness :
    create_simple_transfer_workflow_internal (List.foldl stepCmd c10_mid [Cmd.delete 1 0])
        1 4 5 = Except.ok (c10_post, 1) ∧ (0 : Nat) < 1 :=
  ⟨rfl,
    C10_workflow_ids_never_reassigned.2.2.2.2.1 c10_pre 1 2 3 c10_mid 0 [Cmd.delete 1 0]
      4 5 c10_post 1 rfl rfl⟩

/-- C3: executing the workflow whose graph is a chain of 21 sequential
nodes aborts with `E_RECURSION_LIMIT` (the guard
`current_depth < MAX_RECURSION_DEPTH = 20` fails at the 21st node); the
whole transaction rolls back, so `last_executed_at` stays 0 (shown through
the `get_workflow` view) and no event at all — in particular no
`WorkflowCompletedEvent` — is left in the event stream. -/
theorem C3_chain21_recursion_limit :
    run_execute_workflow chain21_gs 1 0 = (chain21_gs, some E_RECURSION_LIMIT) ∧
    get_workflow (run_execute_workflow chain21_gs 1 0).1 1 0 = (true, 1, 10, 0, false) ∧
    (run_execute_workflow chain21_gs 1 0).1.events = [] := by
  refine ⟨by decide, by decide, by decide⟩

end WorkflowGraph



namespace Backend

/-- C5: `verifyPayment` returns valid with the paid amount exactly when
the fetched transaction exists, succeeded on chain, is a user transaction
whose entry-function payload is the native coin transfer of the native
coin, pays the configured seller at least the required amount, and was
sent by `senderAddress`; each earlier check failing short-circuits with
its own error message, in exactly the source's order (conjuncts follow
that order; each assumes the preceding checks passed). -/
theorem C5_verifyPayment_order (cfg : VerifyConfig) (senderAddress : String) :
    (verifyPayment cfg none senderAddress = ⟨false, none, some "Transaction not found"⟩) ∧
    (∀ tx : ChainTx, tx.vm_status ≠ some "Executed successfully" →
      verifyPayment cfg (some tx) senderAddress =
        ⟨false, none, some "Transaction failed on blockchain"⟩) ∧
    (∀ tx : ChainTx, tx.vm_status = some "Executed successfully" →
      ¬(tx.ttype = "user_transaction" ∧ tx.payload.ptype = "entry_function_payload" ∧
        tx.payload.function = "0x1::coin::transfer" ∧
        tx.payload.type_arguments.head? = some "0x1::aptos_coin::AptosCoin") →
      verifyPayment cfg (some tx) senderAddress =
        ⟨false, none, some "Not a valid APT transfer transaction"⟩) ∧
    (∀ tx : ChainTx, tx.vm_status = some "Executed successfully" →
      (tx.ttype = "user_transaction" ∧ tx.payload.ptype = "entry_function_payload" ∧
        tx.payload.function = "0x1::coin::transfer" ∧
        tx.payload.type_arguments.head? = some "0x1::aptos_coin::AptosCoin") →
      tx.payload.arguments.head? ≠ some cfg.sellerAddress →
      verifyPayment cfg (some tx) senderAddress =
        ⟨false, none, some ("Payment sent to wrong address. Expected " ++ cfg.sellerAddress)⟩) ∧
    (∀ (tx : ChainTx) (amountStr : String) (paid : Nat),
      tx.vm_status = some "Executed successfully" →
      (tx.ttype = "user_transaction" ∧ tx.payload.ptype = "entry_function_payload" ∧
        tx.payload.function = "0x1::coin::transfer" ∧
        tx.payload.type_arguments.head? = some "0x1::aptos_coin::AptosCoin") →
      tx.payload.arguments.head? = some cfg.sellerAddress →
      tx.payload.arguments.get? 1 = some amountStr →
      jsBigInt? amountStr = some paid →
      paid < cfg.requiredAmount →
      verifyPayment cfg (some tx) senderAddress =
        ⟨false, none, some ("Insufficient payment. Required: " ++
          toString cfg.requiredAmount ++ ", Paid: " ++ toString paid)⟩) ∧
    (∀ (tx : ChainTx) (amountStr : String) (paid : Nat),
      tx.vm_status = some "Executed successfully" →
      (tx.ttype = "user_transaction" ∧ tx.payload.ptype = "entry_function_payload" ∧
        tx.payload.function = "0x1::coin::transfer" ∧
        tx.payload.type_arguments.head? = some "0x1::aptos_coin::AptosCoin") →
      tx.payload.arguments.head? = some cfg.sellerAddress →
      tx.payload.arguments.get? 1 = some amountStr →
      jsBigInt? amountStr = some paid →
      cfg.requiredAmount ≤ paid →
      tx.sender ≠ senderAddress →
      verifyPayment cfg (some tx) senderAddress =
        ⟨false, none, some "Sender address mismatch"⟩) ∧
    (∀ (tx : ChainTx) (amountStr : String) (paid : Nat),
      tx.vm_status = some "Executed successfully" →
      (tx.ttype = "user_transaction" ∧ tx.payload.ptype = "entry_function_payload" ∧
        tx.payload.function = "0x1::coin::transfer" ∧
        tx.payload.type_arguments.head? = some "0x1::aptos_coin::AptosCoin") →
      tx.payload.arguments.head? = some cfg.sellerAddress →
      tx.payload.arguments.get? 1 = some amountStr →
      jsBigInt? amountStr = some paid →
      cfg.requiredAmount ≤ paid →
      tx.sender = senderAddress →
      verifyPayment cfg (some tx) senderAddress = ⟨true, some paid, none⟩) ∧
    (∀ (tx : ChainTx) (n : Nat),
      verifyPayment cfg (some tx) senderAddress = ⟨true, some n, none⟩ ↔
      (tx.vm_status = some "Executed successfully" ∧
        (tx.ttype = "user_transaction" ∧ tx.payload.ptype = "entry_function_payload" ∧
          tx.payload.function = "0x1::coin::transfer" ∧
          tx.payload.type_arguments.head? = some "0x1::aptos_coin::AptosCoin") ∧
        tx.payload.arguments.head? = some cfg.sellerAddress ∧
        (∃ amountStr, tx.payload.arguments.get? 1 = some amountStr ∧
          jsBigInt? amountStr = some n) ∧
        cfg.requiredAmount ≤ n ∧
        tx.sender = senderAddress)) := by
  refine ⟨rfl, ?_, ?_, ?_, ?_, ?_, ?_, ?_⟩
  · intro tx hvm
    simp only [verifyPayment]
    rw [if_pos hvm]
  · intro tx hvm hshape
    simp only [verifyPayment]
    rw [if_neg (fun hc => hc hvm), if_neg hshape]
  · intro tx hvm hshape hrec
    simp only [verifyPayment]
    rw [if_neg (fun hc => hc hvm), if_pos hshape, if_pos hrec]
  · intro tx amountStr paid hvm hshape hrec hget hbig hlt
    simp only [verifyPayment]
    rw [if_neg (fun hc => hc hvm), if_pos hshape, if_neg (fun hc => hc hrec)]
    simp only [hget, hbig]
    rw [if_pos hlt]
  · intro tx amountStr paid hvm hshape hrec hget hbig hge hsender
    simp only [verifyPayment]
    rw [if_neg (fun hc => hc hvm), if_pos hshape, if_neg (fun hc => hc hrec)]
    simp only [hget, hbig]
    rw [if_neg (Nat.not_lt.mpr hge), if_pos hsender]
  · intro tx amountStr paid hvm hshape hrec hget hbig hge hsender
    simp only [verifyPayment]
    rw [if_neg (fun hc => hc hvm), if_pos hshape, if_neg (fun hc => hc hrec)]
    simp only [hget, hbig]
    rw [if_neg (Nat.not_lt.mpr hge), if_neg (fun hc => hc hsender)]
  · intro tx n
    constructor
    · intro h
      simp only [verifyPayment] at h
      by_cases hvm : tx.vm_status ≠ some "Executed successfully"
      · rw [if_pos hvm] at h
        cases h
      · rw [if_neg hvm] at h
        rw [Classical.not_not] at hvm
        by_cases hshape : tx.ttype = "user_transaction" ∧
            tx.payload.ptype = "entry_function_payload" ∧
            tx.payload.function = "0x1::coin::transfer" ∧
            tx.payload.type_arguments.head? = some "0x1::aptos_coin::AptosCoin"
        · rw [if_pos hshape] at h
          by_cases hrec : tx.payload.arguments.head? ≠ some cfg.sellerAddress
          · rw [if_pos hrec] at h
            cases h
          · rw [if_neg hrec] at h
            rw [Classical.not_not] at hrec
            cases hget : tx.payload.arguments.get? 1 with
            | none => simp only [hget] at h; cases h
            | some amountStr =>
              simp only [hget] at h
              cases hbig : jsBigInt? amountStr with
              | none => simp only [hbig] at h; cases h
              | some paid =>
                simp only [hbig] at h
                by_cases hlt : paid < cfg.requiredAmount
                · rw [if_pos hlt] at h
                  cases h
                · rw [if_neg hlt] at h
                  by_cases hsender : tx.sender ≠ senderAddress
                  · rw [if_pos hsender] at h
                    cases h
                  · rw [if_neg hsender] at h
                    rw [Classical.not_not] at hsender
                    injection h with h1 h2 h3
                    cases h2
                    exact ⟨hvm, hshape, hrec, ⟨amountStr, rfl, hbig⟩,
                      Nat.not_lt.mp hlt, hsender⟩
        · rw [if_neg hshape] at h
          cases h
    · intro ⟨hvm, hshape, hrec, ⟨amountStr, hget, hbig⟩, hge, hsender⟩
      simp only [verifyPayment]
      rw [if_neg (fun hc => hc hvm), if_pos hshape, if_neg (fun hc => hc hrec)]
      simp only [hget, hbig]
      rw [if_neg (Nat.not_lt.mpr hge), if_neg (fun hc => hc hsender)]

/-- C5 witness: the fully valid transaction verifies with amount 150. -/
theorem C5_witness :
    verifyPayment ⟨"0xseller", 100⟩ (some c5_tx) "0xsender" = ⟨true, some 150, none⟩ :=
  (C5_verifyPayment_order ⟨"0xseller", 100⟩ "0xsender").2.2.2.2.2.2.1 c5_tx "150" 150
    (by decide) (by decide) (by decide) (by decide) (by decide) (by decide) (by decide)

/-- C6 counterexample: the database probe succeeds but the chain balance
read fails (`chainFetch` rejects), yet the handler reports overall status
"ok" with HTTP 200 and `services.aptos = "ok"` — because
`getAccountBalance` swallows every read failure and returns 0, the aptos
catch branch never fires.  This falsifies the claim that a failing
chain-client probe yields "degraded" with 503. -/
theorem C6_counterexample_chain_read_failure_reports_ok :
    healthHandler (Except.ok ()) (Except.error ()) = ⟨"ok", "ok", "ok", 200⟩ := rfl

/-- C6 (amended): the health response depends only on the database probe:
`ok`/200 with both dependency statuses "ok" when the database query
succeeds, `degraded`/503 with `database = "error"` when it fails; the
aptos dependency status is "ok" in every case, whatever the chain read
returned, because `getAccountBalance` never throws. -/
theorem C6_health_status_depends_only_on_db
    (dbProbe : Except Unit Unit) (chainFetch : Except Unit (List AccountResource)) :
    healthHandler dbProbe chainFetch =
      match dbProbe with
      | Except.ok _ => ⟨"ok", "ok", "ok", 200⟩
      | Except.error _ => ⟨"degraded", "error", "ok", 503⟩ := by
  cases dbProbe <;> rfl

/-- C7: when the prompt has no schedule keywords (the case-insensitive
pattern `every|daily|weekly|monthly|hourly|cron|schedule|at \d|on
(monday|...|sunday)` does not match) and the model emitted a trigger of
type `schedule_trigger`, the in-place fix rewrites it to `manual_trigger`
and deletes its `schedule` and `cron` properties, and the trigger node
frame written to the client carries type `manual_trigger` with no
`schedule`/`cron`. -/
theorem C7_schedule_trigger_downgraded (prompt : String) (t : GenTrigger)
    (hkw : hasScheduleKeywords prompt = false)
    (hty : t.ttype = some "schedule_trigger") :
    postProcessTrigger (hasScheduleKeywords prompt) t =
      ⟨some "manual_trigger", none, none⟩ ∧
    sentTriggerFrame (hasScheduleKeywords prompt) t = ⟨"manual_trigger", none, none⟩ := by
  rw [hkw]
  constructor
  · unfold postProcessTrigger
    rw [if_pos ⟨hty, rfl⟩]
  · unfold sentTriggerFrame postProcessTrigger
    rw [if_pos ⟨hty, rfl⟩]

/-- C7 witness: the prompt "send 2 apt to bob" has no schedule keywords,
so a model-emitted schedule trigger is sent as a bare manual trigger. -/
theorem C7_witness :
    sentTriggerFrame (hasScheduleKeywords "send 2 apt to bob")
        ⟨some "schedule_trigger", some "weekly", some "0 0 * * 5"⟩ =
      ⟨"manual_trigger", none, none⟩ :=
  (C7_schedule_trigger_downgraded "send 2 apt to bob"
    ⟨some "schedule_trigger", some "weekly", some "0 0 * * 5"⟩ (by decide) rfl).2

/-- C8: behaviour of the per-wallet rate limiter, for a present non-empty
sender.  First conjunct: the `retryAfter` formula is the
milliseconds-to-seconds ceiling, i.e. the least number of whole seconds
covering the remaining window.  Then: a window row at or above the
threshold is rejected 429 with `retryAfter` the rounded-up seconds until
`windowStart + 1h`, and the table is untouched (the handler chain stops);
a row under the threshold gets its counter incremented by exactly 1 and
the request proceeds; no row within the hour creates a fresh row with
count 1 at `now` and proceeds. -/
theorem C8_rate_limit_window (rows : List RateLimitRow) (threshold : Nat) (s : String)
    (now : Int) (freshId : Nat) (hs : s ≠ "") :
    (∀ x : Int, x ≤ 1000 * ceilDivThousand x ∧ 1000 * (ceilDivThousand x - 1) < x) ∧
    (∀ row, findWindowRow rows s now = some row →
      (threshold ≤ row.requestCount →
        rateLimitByWallet rows threshold (some s) now freshId =
          (rows, RLOutcome.reject 429 (ceilDivThousand (row.windowStart + HOUR_MS - now)))) ∧
      (row.requestCount < threshold →
        rateLimitByWallet rows threshold (some s) now freshId =
          (rows.map (fun r => if r.rid = row.rid then
            { r with requestCount := r.requestCount + 1 } else r), RLOutcome.proceed))) ∧
    (findWindowRow rows s now = none →
      rateLimitByWallet rows threshold (some s) now freshId =
        (rows ++ [⟨freshId, s, 1, now⟩], RLOutcome.proceed)) := by
  refine ⟨?_, ?_, ?_⟩
  · intro x
    have hmod : 1000 * ((x + 999).fdiv 1000) + (x + 999).fmod 1000 = x + 999 :=
      Int.fdiv_add_fmod (x + 999) 1000
    have h0 : 0 ≤ (x + 999).fmod 1000 := Int.fmod_nonneg' (x + 999) (by norm_num)
    have h1 : (x + 999).fmod 1000 < 1000 := Int.fmod_lt_of_pos (x + 999) (by norm_num)
    unfold ceilDivThousand
    omega
  · intro row hfind
    constructor
    · intro hth
      simp only [rateLimitByWallet]
      rw [if_neg hs]
      simp only [hfind]
      rw [if_pos hth]
    · intro hlt
      simp only [rateLimitByWallet]
      rw [if_neg hs]
      simp only [hfind]
      rw [if_neg (Nat.not_le.mpr hlt)]
  · intro hfind
    simp only [rateLimitByWallet]
    rw [if_neg hs]
    simp only [hfind]

/-- C8 witness: with threshold 5 and an in-window row already at count 5,
the request is rejected 429 and `retryAfter` is 3599 seconds (3 599 000 ms
remaining, rounded up). -/
theorem C8_witness :
    rateLimitByWallet [⟨1, "0xw", 5, 0⟩] 5 (some "0xw") 1000 2 =
      ([⟨1, "0xw", 5, 0⟩], RLOutcome.reject 429 3599) :=
  ((C8_rate_limit_window [⟨1, "0xw", 5, 0⟩] 5 "0xw" 1000 2 (by decide)).2.1
    ⟨1, "0xw", 5, 0⟩ (by decide)).1 (by decide)

/-- `List.find?` over an appended list: the first list wins. -/
theorem find?_append {α : Type} (l1 l2 : List α) (p : α → Bool) :
    (l1 ++ l2).find? p =
      match l1.find? p with
      | some x => some x
      | none => l2.find? p := by
  induction l1 with
  | nil => rfl
  | cons a l ih =>
    rw [List.cons_append]
    by_cases h : p a
    · rw [List.find?_cons_of_pos _ h, List.find?_cons_of_pos _ h]
    · rw [List.find?_cons_of_neg _ h, List.find?_cons_of_neg _ h, ih]

/-- C9: `storePayment` is idempotent in `txHash`.  When a payment with
this hash exists, its id is returned and the payment table is untouched;
when none exists, exactly one new VERIFIED payment expiring one validity
window after `now` is appended and its fresh id returned; and a second
call with the same wallet and hash (whatever its `now`, window, or fresh
ids) returns the same ids and leaves the database exactly as the first
call left it. -/
theorem C9_storePayment_idempotent (db : PayDb) (w tx : String) (amount : Nat)
    (now expiryHours : Int) (f1 f2 : String) :
    (∀ p, db.payments.find? (fun q => q.txHash == tx) = some p →
      ((storePayment db w tx amount now expiryHours f1 f2).1).payments = db.payments ∧
      (storePayment db w tx amount now expiryHours f1 f2).2.1 = p.pid) ∧
    (db.payments.find? (fun q => q.txHash == tx) = none →
      ∃ uid, ((storePayment db w tx amount now expiryHours f1 f2).1).payments =
          db.payments ++ [⟨f2, uid, tx, amount, "VERIFIED", now, now + expiryHours * HOUR_MS⟩] ∧
        (storePayment db w tx amount now expiryHours f1 f2).2.1 = f2) ∧
    (∀ now2 h2 g1 g2,
      storePayment ((storePayment db w tx amount now expiryHours f1 f2).1) w tx amount
          now2 h2 g1 g2 =
        ((storePayment db w tx amount now expiryHours f1 f2).1,
          (storePayment db w tx amount now expiryHours f1 f2).2.1,
          (storePayment db w tx amount now expiryHours f1 f2).2.2)) := by
  refine ⟨?_, ?_, ?_⟩
  · intro p hp
    cases hu : db.users.find? (fun u => u.walletAddress == w) with
    | some u => simp [storePayment, hu, hp]
    | none => simp [storePayment, hu, hp]
  · intro hp
    cases hu : db.users.find? (fun u => u.walletAddress == w) with
    | some u =>
      exact ⟨u.uid, by simp [storePayment, hu, hp], by simp [storePayment, hu, hp]⟩
    | none =>
      exact ⟨f1, by simp [storePayment, hu, hp], by simp [storePayment, hu, hp]⟩
  · intro now2 h2 g1 g2
    cases hu : db.users.find? (fun u => u.walletAddress == w) with
    | some u =>
      cases hp : db.payments.find? (fun q => q.txHash == tx) with
      | some p => simp [storePayment, hu, hp, find?_append]
      | none => simp [storePayment, hu, hp, find?_append]
    | none =>
      cases hp : db.payments.find? (fun q => q.txHash == tx) with
      | some p => simp [storePayment, hu, hp, find?_append]
      | none => simp [storePayment, hu, hp, find?_append]

/-- C9 witness: on an empty database, storing payment hash "0xtx" creates
one VERIFIED payment with a 24-hour window from time 100. -/
theorem C9_witness :
    ∃ uid, ((storePayment ⟨[], []⟩ "0xw" "0xtx" 7 100 24 "u1" "p1").1).payments =
        [] ++ [⟨"p1", uid, "0xtx", 7, "VERIFIED", 100, 100 + 24 * HOUR_MS⟩] ∧
      (storePayment ⟨[], []⟩ "0xw" "0xtx" 7 100 24 "u1" "p1").2.1 = "p1" :=
  (C9_storePayment_idempotent ⟨[], []⟩ "0xw" "0xtx" 7 100 24 "u1" "p1").2.1 rfl

end Backend
